import Mathlib

/-!
Shallow embedding of the Rivion face-emotion search backend
(`backend/app/routes/search.py`, `backend/app/services/emotion.py`,
`backend/app/services/face_detection.py`, `backend/app/services/database.py`,
`backend/app/config.py`).

Conventions of the embedding:
* Python floats are modelled as rationals (`ℚ`), timestamps as seconds (`Nat`).
* Python dicts keyed by label are modelled as association lists whose key list
  is kept in insertion order (Python 3.7+ dict semantics).
* External collaborators (DB commit success, S3, OpenCV decode, RetinaFace,
  InsightFace, the FAISS placeholder, per-candidate classifier evaluation) are
  inputs of a `World` record: the source functions delegate these effects to
  libraries or are explicit placeholders, so their outcomes are parameters.
* A Python function that raises is modelled by an error branch; a function
  that swallows exceptions internally is modelled as total.
-/

namespace Rivion

/-- `Settings.SESSION_EXPIRY_HOURS` from `backend/app/config.py`. -/
def SESSION_EXPIRY_HOURS : Nat := 24

/-- `Settings.MAX_IMAGES_TO_PROCESS` from `backend/app/config.py`. -/
def MAX_IMAGES_TO_PROCESS : Nat := 50

/-- `Settings.FACE_SIMILARITY_THRESHOLD` from `backend/app/config.py`. -/
def FACE_SIMILARITY_THRESHOLD : ℚ := 6/10

/-- `EMOTION_LABELS` from `backend/app/services/emotion.py`. -/
def EMOTION_LABELS : List String :=
  ["angry", "disgust", "fear", "happy", "neutral", "sad", "surprise"]

/-- Left scan of Python `max(iterable, key=f)` starting from current best `b`:
the running best is replaced only on a strictly greater key, so on ties the
earlier element wins. -/
def maxByKey {β : Type} [LinearOrder β] (f : String → β) (b : String) :
    List String → String
  | [] => b
  | x :: xs => if f x > f b then maxByKey f x xs else maxByKey f b xs

/-- Python `max(keys, key=f)`: first element seeds the scan.  Python raises on
an empty iterable; both call sites in the source guard against emptiness, so
the `[]` case returns a sentinel that is never reached. -/
def pymax {β : Type} [LinearOrder β] (f : String → β) : List String → String
  | [] => ""
  | k :: ks => maxByKey f k ks

/-- One dict-key insertion: a fresh key is appended, an existing key keeps
its place (Python 3.7+ dict semantics). -/
def insertKey (acc : List String) (x : String) : List String :=
  if x ∈ acc then acc else acc ++ [x]

/-- Fold of `insertKey` over the remaining elements. -/
def keysAux (acc : List String) : List String → List String
  | [] => acc
  | x :: xs => keysAux (insertKey acc x) xs

/-- Keys of a Python dict built by iterating a list and inserting each element
as a key: first-occurrence order, duplicates dropped. -/
def keysInOrder (l : List String) : List String := keysAux [] l

/-- Python `str` on a bool ("True"/"False"). -/
def pyStr (b : Bool) : String := if b then "True" else "False"

/-- One entry of the `emotion_results` list built by `search_photos`
(step 6 of the route handler). -/
structure Record where
  image_id : String
  image_url : String
  emotion : String
  emotion_distribution : List (String × ℚ)
  emotion_confidence : ℚ
  similarity_score : ℚ
deriving DecidableEq, Repr

/-- The per-image labels of a result list (`result['emotion']` accesses). -/
def recLabels (rs : List Record) : List String := rs.map Record.emotion

/-- The tally `emotion_counts[l]` built by `aggregate_emotions`. -/
def labelCount (rs : List Record) (l : String) : Nat := (recLabels rs).count l

/-- `aggregate_emotions` from `backend/app/services/emotion.py`: majority vote
over per-image top labels.  Empty input returns `('neutral', 0.0, {})`;
otherwise the dominant label is `max(emotion_counts, key=emotion_counts.get)`
(ties to the first-encountered label), confidence is `tally(dominant)/N` and
the distribution maps each observed label to `tally(label)/N`. -/
def aggregate_emotions (emotion_results : List Record) :
    String × ℚ × List (String × ℚ) :=
  if emotion_results.isEmpty then ("neutral", 0, [])
  else
    let keys := keysInOrder (recLabels emotion_results)
    let dominant := pymax (labelCount emotion_results) keys
    let total : ℚ := (emotion_results.length : ℚ)
    (dominant,
     (labelCount emotion_results dominant : ℚ) / total,
     keys.map (fun l => (l, (labelCount emotion_results l : ℚ) / total)))

/-- The hard-coded mock distribution inside `analyze_emotion`
(`backend/app/services/emotion.py`, a placeholder for the ViT model). -/
def mockEmotionDist : List (String × ℚ) :=
  [("happy", 45/100), ("sad", 15/100), ("angry", 10/100), ("neutral", 20/100),
   ("fear", 5/100), ("surprise", 3/100), ("disgust", 2/100)]

/-- Python `dict.get` on a label-keyed dict. -/
def distGet (d : List (String × ℚ)) (l : String) : ℚ := ((d.lookup l).getD 0)

/-- `analyze_emotion` from `backend/app/services/emotion.py`.  The whole body
is wrapped in `try/except Exception`, and the except branch returns the
fallback `('neutral', {}, 0.0)` — the function never raises.  The input models
the outcome of `Image.open(image_path)` (the only failable step of the body):
`.error` for any internal exception, `.ok` for a loaded image. -/
def analyze_emotion (load : Except Unit Unit) : String × List (String × ℚ) × ℚ :=
  match load with
  | .error _ => ("neutral", [], 0)
  | .ok _ =>
    let dominant := pymax (distGet mockEmotionDist) (mockEmotionDist.map Prod.fst)
    (dominant, mockEmotionDist, distGet mockEmotionDist dominant)

/-! ## Data model (`backend/app/services/database.py`) -/

/-- A `session_user` row.  Columns not touched by any claim
(`captured_image_path`, `embedding`, `timestamp`) are omitted;
`privacy_policy_agreed` is stored as a string, as in
`SessionUser(privacy_policy_agreed=str(privacy_policy_agreed))`. -/
structure SessionRow where
  session_id : String
  user_name : String
  captured_image_base64 : String
  privacy_policy_agreed : String
  status : String
  created_at : Nat
  expires_at : Nat
deriving DecidableEq, Repr

/-- An `emotion_log` row (the generated `emotion_id` uuid is omitted). -/
structure EmotionRow where
  image_id : String
  session_id : String
  emotion_label : String
  confidence : ℚ
  emotion_distribution : List (String × ℚ)
deriving DecidableEq, Repr

/-- A `session_aggregated_emotion` row (the generated uuid is omitted). -/
structure AggRow where
  session_id : String
  dominant_emotion : String
  emotion_confidence : ℚ
  emotion_distribution : List (String × ℚ)
  statement : String
deriving DecidableEq, Repr

/-- The three tables of the store. -/
structure DB where
  session_user : List SessionRow
  emotion_log : List EmotionRow
  session_aggregated_emotion : List AggRow
deriving DecidableEq, Repr

/-- The row built by `insert_session_user`:
`expires_at = datetime.utcnow() + timedelta(hours=settings.SESSION_EXPIRY_HOURS)`,
`created_at` defaulted to the insert time, `status='searching'`. -/
def mkSessionRow (now : Nat) (session_id user_name captured_image_base64 : String)
    (privacy_policy_agreed : Bool) : SessionRow :=
  { session_id := session_id
    user_name := user_name
    captured_image_base64 := captured_image_base64
    privacy_policy_agreed := pyStr privacy_policy_agreed
    status := "searching"
    created_at := now
    expires_at := now + SESSION_EXPIRY_HOURS * 3600 }

/-- `insert_session_user` from `backend/app/services/database.py`.  On a
storage failure the source re-raises (modelled at the call site in
`search_photos`); the success case adds the row. -/
def insert_session_user (now : Nat)
    (session_id user_name captured_image_base64 : String)
    (privacy_policy_agreed : Bool) (db : DB) : DB :=
  { db with session_user :=
      (mkSessionRow now session_id user_name captured_image_base64
        privacy_policy_agreed) :: db.session_user }

/-- `insert_emotion_log` from `backend/app/services/database.py`.  The body is
wrapped in `try/except` and the except branch only logs — a failed persist is
swallowed and the caller observes a normal return either way.  `ok` is the
commit outcome. -/
def insert_emotion_log (ok : Bool) (row : EmotionRow) (db : DB) : DB :=
  if ok then { db with emotion_log := db.emotion_log ++ [row] } else db

/-- `insert_aggregated_emotion` from `backend/app/services/database.py`; like
`insert_emotion_log` it swallows storage failures. -/
def insert_aggregated_emotion (ok : Bool) (row : AggRow) (db : DB) : DB :=
  if ok then
    { db with session_aggregated_emotion := db.session_aggregated_emotion ++ [row] }
  else db

/-- `delete_session` from `backend/app/services/database.py`: deletes every
row of the three tables whose `session_id` matches; deleting zero rows is a
normal outcome, and the surrounding `try/except` swallows storage errors. -/
def delete_session (session_id : String) (db : DB) : DB :=
  { session_user := db.session_user.filter (fun r => r.session_id != session_id)
    emotion_log := db.emotion_log.filter (fun r => r.session_id != session_id)
    session_aggregated_emotion :=
      db.session_aggregated_emotion.filter (fun r => r.session_id != session_id) }

/-! ## The search orchestration (`backend/app/routes/search.py`) -/

/-- The request schema `SearchRequest`. -/
structure SearchRequest where
  session_id : String
  user_name : String
  captured_image : String
  privacy_policy_agreed : Bool
  timestamp : String
deriving DecidableEq, Repr

/-- One entry of the list returned by `get_matched_images`. -/
structure MatchedImage where
  image_id : String
  image_url : String
  image_path : String
  similarity_score : ℚ
deriving DecidableEq, Repr

/-- The single entry of the literal list the placeholder
`get_matched_images` returns in the source. -/
def img1 : MatchedImage :=
  { image_id := "1", image_url := "https://example.com/image1.jpg",
    image_path := "/path/to/image1.jpg", similarity_score := 95/100 }

/-- The literal list the placeholder `get_matched_images` returns in the
source (`# Placeholder: In real implementation, query FAISS`). -/
def get_matched_images_stub : List MatchedImage := [img1]

/-- Outcomes of the external collaborators for one request.  Each field
models the result of an effectful call the source delegates to a library or
marks as a placeholder:
* `sessionInsertOk`: the commit inside `insert_session_user` (which re-raises
  on failure);
* `s3Ok`: base64 decode plus `s3_client.put_object` inside
  `upload_image_to_s3` (which re-raises on failure);
* `imdecodeOk`: `cv2.imdecode` produced a bitmap;
* `facesFound`: `RetinaFace.detect_faces` returned at least one face;
* `embeddingOk`: `extract_embedding` produced a vector (on `None` the route
  handler's logging line raises, surfacing as a 500);
* `matchedImages`: the response of the similarity index.  Modelled from the
  spec: the source `get_matched_images` is an explicit placeholder for an
  external FAISS query, so the index response is an input;
* `classifyOutcome i`: evaluation of the loop body for candidate `i` up to
  and including `analyze_emotion` — `.ok` the returned triple, `.error` an
  exception raised in the body (caught by the loop's `except: continue`);
* `emotionPersistOk i`: the commit inside `insert_emotion_log`;
* `aggPersistOk`: the commit inside `insert_aggregated_emotion`;
* `now`: `datetime.utcnow()` at session-insert time, in seconds. -/
structure World where
  now : Nat
  sessionInsertOk : Bool
  s3Ok : Bool
  imdecodeOk : Bool
  facesFound : Bool
  embeddingOk : Bool
  matchedImages : List MatchedImage
  classifyOutcome : Nat → Except Unit (String × List (String × ℚ) × ℚ)
  emotionPersistOk : Nat → Bool
  aggPersistOk : Bool

/-- `detect_and_align_face` from `backend/app/services/face_detection.py`:
returns `None` both when `cv2.imdecode` cannot decode the bytes and when
RetinaFace finds no face (and on any internal exception); otherwise the
aligned 112x112 crop (opaque here). -/
def detect_and_align_face (w : World) : Option Unit :=
  if w.imdecodeOk then (if w.facesFound then some () else none) else none

/-- `extract_embedding` from `backend/app/services/embedding.py`: `None` when
no face is found for embedding or on an internal error, otherwise the
normalized vector (opaque here). -/
def extract_embedding (w : World) : Option Unit :=
  if w.embeddingOk then some () else none

/-- `get_matched_images` from `backend/app/services/database.py`.  Modelled
from the spec: the source body is a placeholder for the external FAISS
similarity query (§6 Similarity Index), so the candidate list is the
collaborator response carried by the `World`. -/
def get_matched_images (w : World) (limit : Nat) (threshold : ℚ) :
    List MatchedImage :=
  w.matchedImages

/-- Observable effects of one request, in program order. -/
inductive Event where
  | sessionInsert (session_id : String)
  | s3Upload (session_id : String)
  | classifierCall (image_path : String)
  | emotionLogInsert (image_id : String)
  | aggregatedInsert (session_id : String)
  | scheduleCleanup (session_id : String)
deriving DecidableEq, Repr

/-- The error raised when `detect_and_align_face` returns `None`. -/
def noFaceDetail : String :=
  "No face detected in the image. Please try again with a clearer image."

/-- The error raised when `get_matched_images` returns an empty list. -/
def noMatchesDetail : String :=
  "No matching faces found in the database."

/-- An `HTTPException` as surfaced to the client. -/
structure HTTPError where
  status_code : Nat
  detail : String
deriving DecidableEq, Repr

/-- The `SearchResponse` schema; `aggregated_state` is the
(dominant, confidence, distribution) triple of `aggregate_emotions`. -/
structure SearchResponse where
  matched_count : Nat
  matched_images : List Record
  aggregated_state : String × ℚ × List (String × ℚ)
  statement : String
  session_id : String
deriving DecidableEq, Repr

instance instDecEqExcept {ε α : Type} [DecidableEq ε] [DecidableEq α] :
    DecidableEq (Except ε α)
  | .error e, .error f =>
    if h : e = f then isTrue (congrArg Except.error h)
    else isFalse (fun hh => h (Except.error.inj hh))
  | .error _, .ok _ => isFalse (fun hh => Except.noConfusion hh)
  | .ok _, .error _ => isFalse (fun hh => Except.noConfusion hh)
  | .ok a, .ok b =>
    if h : a = b then isTrue (congrArg Except.ok h)
    else isFalse (fun hh => h (Except.ok.inj hh))

/-- Result, store state and effect trace of one call to the endpoint. -/
structure SearchOutcome where
  result : Except HTTPError SearchResponse
  db : DB
  trace : List Event
deriving DecidableEq, Repr

/-- Renders a rational to one decimal place (the `:.1f` format of the
statement template; rounding mode immaterial to every claim). -/
def fmtPct1 (q : ℚ) : String :=
  let n : Int := (q * 10 + 1/2).floor
  toString (n / 10) ++ "." ++ toString (n % 10)

/-- Python `str.upper()` on an ASCII label. -/
def pyUpper (s : String) : String := String.mk (s.data.map Char.toUpper)

/-- The statement template of step 7 of the route handler. -/
def mkStatement (dominant : String) (confidence : ℚ) : String :=
  "The person\x27s emotion state is " ++ pyUpper dominant ++ " (" ++
    fmtPct1 (confidence * 100) ++ "% confidence)"

/-- What the candidate loop of step 6 produces: the `emotion_results` list,
the store after the interleaved `insert_emotion_log` calls, and the effect
trace of the loop. -/
structure LoopOut where
  results : List Record
  db : DB
  evs : List Event
deriving Repr

/-- Step 6 of `search_photos`: per candidate, evaluate `analyze_emotion`
(an exception anywhere in the body is caught by `except: continue`, dropping
the candidate), append the result record, and attempt `insert_emotion_log`
(whose own failures are swallowed). -/
def emotion_loop (w : World) (session_id : String) :
    Nat → List MatchedImage → DB → LoopOut
  | _, [], db => ⟨[], db, []⟩
  | i, img :: rest, db =>
    match w.classifyOutcome i with
    | .error _ =>
      let t := emotion_loop w session_id (i+1) rest db
      ⟨t.results, t.db, Event.classifierCall img.image_path :: t.evs⟩
    | .ok (lbl, dist, conf) =>
      let db₁ := insert_emotion_log (w.emotionPersistOk i)
        ⟨img.image_id, session_id, lbl, conf, dist⟩ db
      let t := emotion_loop w session_id (i+1) rest db₁
      ⟨{ image_id := img.image_id, image_url := img.image_url, emotion := lbl,
         emotion_distribution := dist, emotion_confidence := conf,
         similarity_score := img.similarity_score } :: t.results,
       t.db,
       Event.classifierCall img.image_path ::
         Event.emotionLogInsert img.image_id :: t.evs⟩

/-- Number of processed candidates whose loop-body evaluation raised
(dropped by `except: continue`), counting from index `i`. -/
def numFailed (w : World) : Nat → List MatchedImage → Nat
  | _, [] => 0
  | i, _ :: rest =>
    (if (w.classifyOutcome i).isOk then 0 else 1) + numFailed w (i+1) rest

/-- Steps 6–9 of the route handler, reached after a non-empty candidate list:
run the loop over `matched_images[:MAX_IMAGES_TO_PROCESS]`, aggregate,
attempt the aggregated insert, schedule cleanup, and build the response. -/
def successPart (req : SearchRequest) (w : World) (db₁ : DB)
    (tr₂ : List Event) (matched : List MatchedImage) : SearchOutcome :=
  let lp := emotion_loop w req.session_id 0 (matched.take MAX_IMAGES_TO_PROCESS) db₁
  let agg := aggregate_emotions lp.results
  let stmt := mkStatement agg.1 agg.2.1
  let db₂ := insert_aggregated_emotion w.aggPersistOk
    ⟨req.session_id, agg.1, agg.2.1, agg.2.2, stmt⟩ lp.db
  ⟨.ok { matched_count := lp.results.length, matched_images := lp.results,
         aggregated_state := agg, statement := stmt,
         session_id := req.session_id },
   db₂,
   tr₂ ++ lp.evs ++
     [Event.aggregatedInsert req.session_id, Event.scheduleCleanup req.session_id]⟩

/-- `search_photos` from `backend/app/routes/search.py`, the `POST /search`
handler.  Control flow mirrors the source: session insert (a storage failure
re-raises and surfaces as a 500), S3 upload (failure re-raises, 500), face
detection (`None` raises 400 with `noFaceDetail`), embedding extraction
(`None` makes the handler's next line raise, surfacing as a 500), similarity
lookup (`if not matched_images` raises 404 with `noMatchesDetail`), then the
candidate loop, aggregation, aggregated insert and cleanup scheduling.
The handler performs no check of `privacy_policy_agreed`. -/
def search_photos (req : SearchRequest) (w : World) (db : DB) : SearchOutcome :=
  if w.sessionInsertOk then
    let db₁ := insert_session_user w.now req.session_id req.user_name
      req.captured_image req.privacy_policy_agreed db
    let tr₁ := [Event.sessionInsert req.session_id]
    if w.s3Ok then
      let tr₂ := tr₁ ++ [Event.s3Upload req.session_id]
      match detect_and_align_face w with
      | none => ⟨.error ⟨400, noFaceDetail⟩, db₁, tr₂⟩
      | some _ =>
        match extract_embedding w with
        | none =>
          ⟨.error ⟨500, "Search failed: embedding is None"⟩, db₁, tr₂⟩
        | some _ =>
          let matched := get_matched_images w MAX_IMAGES_TO_PROCESS
            FACE_SIMILARITY_THRESHOLD
          if matched.isEmpty then
            ⟨.error ⟨404, noMatchesDetail⟩, db₁, tr₂⟩
          else
            successPart req w db₁ tr₂ matched
    else ⟨.error ⟨500, "Search failed: S3 upload error"⟩, db₁, tr₁⟩
  else ⟨.error ⟨500, "Search failed: session insert error"⟩, db, []⟩

/-! ## Helper lemmas -/

/-- Membership after one key insertion. -/
lemma mem_insertKey (acc : List String) (x a : String) :
    a ∈ insertKey acc x ↔ a ∈ acc ∨ a = x := by
  by_cases hx : x ∈ acc
  · simp only [insertKey, if_pos hx]
    constructor
    · exact fun h => Or.inl h
    · rintro (h | rfl)
      · exact h
      · exact hx
  · simp only [insertKey, if_neg hx, List.mem_append, List.mem_singleton]

/-- Membership in the key fold. -/
lemma mem_keysAux : ∀ (l acc : List String) (a : String),
    a ∈ keysAux acc l ↔ a ∈ acc ∨ a ∈ l := by
  intro l
  induction l with
  | nil => intro acc a; simp [keysAux]
  | cons x xs ih =>
    intro acc a
    simp only [keysAux]
    rw [ih, mem_insertKey, List.mem_cons]
    tauto

/-- The key set of the tally dict is exactly the set of observed labels. -/
lemma mem_keysInOrder (l : List String) (a : String) :
    a ∈ keysInOrder l ↔ a ∈ l := by
  unfold keysInOrder
  rw [mem_keysAux]
  simp

/-- The key fold of a non-empty accumulator stays non-empty. -/
lemma keysAux_ne_nil : ∀ (l acc : List String), acc ≠ [] → keysAux acc l ≠ [] := by
  intro l
  induction l with
  | nil => intro acc h; exact h
  | cons x xs ih =>
    intro acc h
    simp only [keysAux]
    apply ih
    unfold insertKey
    split
    · exact h
    · simp

/-- A non-empty label list yields a non-empty key list. -/
lemma keysInOrder_ne_nil (l : List String) (h : l ≠ []) :
    keysInOrder l ≠ [] := by
  cases l with
  | nil => exact absurd rfl h
  | cons x xs =>
    unfold keysInOrder
    simp only [keysAux]
    apply keysAux_ne_nil
    unfold insertKey
    split
    · rename_i hx
      exact absurd hx (List.not_mem_nil x)
    · simp

/-- Positional characterization of the Python `max` scan: the chosen element
splits the scanned list into a strict-smaller prefix and a no-larger suffix —
it is the first element attaining the maximum key. -/
lemma maxByKey_spec {β : Type} [LinearOrder β] (f : String → β) :
    ∀ (ks : List String) (b : String),
      ∃ pre suf, b :: ks = pre ++ maxByKey f b ks :: suf ∧
        (∀ p ∈ pre, f p < f (maxByKey f b ks)) ∧
        (∀ s ∈ suf, f s ≤ f (maxByKey f b ks)) := by
  intro ks
  induction ks with
  | nil => intro b; exact ⟨[], [], rfl, by simp, by simp⟩
  | cons x xs ih =>
    intro b
    by_cases hx : f x > f b
    · rw [show maxByKey f b (x :: xs) = maxByKey f x xs from by
        rw [maxByKey, if_pos hx]]
      obtain ⟨pre, suf, heq, hpre, hsuf⟩ := ih x
      have hxle : f x ≤ f (maxByKey f x xs) := by
        have hmem : x ∈ pre ++ maxByKey f x xs :: suf := by
          rw [← heq]; exact List.mem_cons_self x xs
        rcases List.mem_append.1 hmem with h | h
        · exact le_of_lt (hpre _ h)
        · rcases List.mem_cons.1 h with h | h
          · exact le_of_eq (congrArg f h)
          · exact hsuf _ h
      refine ⟨b :: pre, suf, ?_, ?_, hsuf⟩
      · rw [List.cons_append, ← heq]
      · intro p hp
        rcases List.mem_cons.1 hp with rfl | hp
        · exact lt_of_lt_of_le hx hxle
        · exact hpre _ hp
    · rw [show maxByKey f b (x :: xs) = maxByKey f b xs from by
        rw [maxByKey, if_neg hx]]
      obtain ⟨pre, suf, heq, hpre, hsuf⟩ := ih b
      cases pre with
      | nil =>
        injection heq with hb hxs
        refine ⟨[], x :: suf, ?_, by simp, ?_⟩
        · rw [List.nil_append, ← hb, ← hxs]
        · intro s hs
          rcases List.mem_cons.1 hs with rfl | hs
          · calc f s ≤ f b := not_lt.1 hx
              _ = f (maxByKey f b xs) := congrArg f hb
          · exact hsuf _ hs
      | cons p0 pre2 =>
        injection heq with hb hxs
        rw [List.append_eq] at hxs
        refine ⟨b :: x :: pre2, suf, ?_, ?_, hsuf⟩
        · rw [List.cons_append, List.cons_append, ← hxs]
        · intro p hp
          have hb0 : f b < f (maxByKey f b xs) :=
            lt_of_eq_of_lt (congrArg f hb) (hpre p0 (List.mem_cons_self _ _))
          rcases List.mem_cons.1 hp with rfl | hp
          · exact hb0
          · rcases List.mem_cons.1 hp with rfl | hp
            · exact lt_of_le_of_lt (not_lt.1 hx) hb0
            · exact hpre _ (List.mem_cons_of_mem _ hp)

/-- `pymax` on a non-empty key list: membership, maximality, and the
first-encountered tie-break. -/
lemma pymax_spec {β : Type} [LinearOrder β] (f : String → β)
    (keys : List String) (h : keys ≠ []) :
    pymax f keys ∈ keys ∧ (∀ l ∈ keys, f l ≤ f (pymax f keys)) ∧
      ∃ pre suf, keys = pre ++ pymax f keys :: suf ∧
        ∀ p ∈ pre, f p < f (pymax f keys) := by
  cases keys with
  | nil => exact absurd rfl h
  | cons k ks =>
    have hp : pymax f (k :: ks) = maxByKey f k ks := rfl
    obtain ⟨pre, suf, heq, hpre, hsuf⟩ := maxByKey_spec f ks k
    rw [hp]
    refine ⟨?_, ?_, pre, suf, heq, hpre⟩
    · rw [heq]; exact List.mem_append_right _ (List.mem_cons_self _ _)
    · intro l hl
      rw [heq] at hl
      rcases List.mem_append.1 hl with h | h
      · exact le_of_lt (hpre _ h)
      · rcases List.mem_cons.1 h with h | h
        · exact le_of_eq (congrArg f h)
        · exact hsuf _ h

/-- Attempting the emotion-log insert never touches the `session_user`
table. -/
lemma insert_emotion_log_session_user (ok : Bool) (row : EmotionRow) (db : DB) :
    (insert_emotion_log ok row db).session_user = db.session_user := by
  unfold insert_emotion_log; split <;> rfl

/-- Attempting the emotion-log insert never touches the aggregated table. -/
lemma insert_emotion_log_agg (ok : Bool) (row : EmotionRow) (db : DB) :
    (insert_emotion_log ok row db).session_aggregated_emotion =
      db.session_aggregated_emotion := by
  unfold insert_emotion_log; split <;> rfl

/-- Attempting the aggregated insert never touches `session_user`. -/
lemma insert_aggregated_emotion_session_user (ok : Bool) (row : AggRow) (db : DB) :
    (insert_aggregated_emotion ok row db).session_user = db.session_user := by
  unfold insert_aggregated_emotion; split <;> rfl

/-- The candidate loop never touches the `session_user` table. -/
lemma emotion_loop_session_user (w : World) (sid : String) :
    ∀ (cands : List MatchedImage) (i : Nat) (db : DB),
      (emotion_loop w sid i cands db).db.session_user = db.session_user := by
  intro cands
  induction cands with
  | nil => intro i db; rfl
  | cons img rest ih =>
    intro i db
    cases hc : w.classifyOutcome i with
    | error e => simp only [emotion_loop, hc]; exact ih (i+1) db
    | ok v =>
      obtain ⟨lbl, dist, conf⟩ := v
      simp only [emotion_loop, hc]
      rw [ih]
      exact insert_emotion_log_session_user ..

/-- The candidate loop never touches the aggregated table. -/
lemma emotion_loop_agg (w : World) (sid : String) :
    ∀ (cands : List MatchedImage) (i : Nat) (db : DB),
      (emotion_loop w sid i cands db).db.session_aggregated_emotion =
        db.session_aggregated_emotion := by
  intro cands
  induction cands with
  | nil => intro i db; rfl
  | cons img rest ih =>
    intro i db
    cases hc : w.classifyOutcome i with
    | error e => simp only [emotion_loop, hc]; exact ih (i+1) db
    | ok v =>
      obtain ⟨lbl, dist, conf⟩ := v
      simp only [emotion_loop, hc]
      rw [ih]
      exact insert_emotion_log_agg ..

/-- Exactly the non-raising candidates contribute a result record:
`|results| + |dropped| = |candidates|`. -/
lemma emotion_loop_length (w : World) (sid : String) :
    ∀ (cands : List MatchedImage) (i : Nat) (db : DB),
      (emotion_loop w sid i cands db).results.length + numFailed w i cands =
        cands.length := by
  intro cands
  induction cands with
  | nil => intro i db; rfl
  | cons img rest ih =>
    intro i db
    cases hc : w.classifyOutcome i with
    | error e =>
      have hrec := ih (i+1) db
      simp only [emotion_loop, hc, numFailed, Except.isOk, Except.toBool,
        List.length_cons, if_false, ite_false, ite_true, Bool.false_eq_true]
      omega
    | ok v =>
      obtain ⟨lbl, dist, conf⟩ := v
      have hrec := ih (i+1) (insert_emotion_log (w.emotionPersistOk i)
        ⟨img.image_id, sid, lbl, conf, dist⟩ db)
      simp only [emotion_loop, hc, numFailed, Except.isOk, Except.toBool,
        List.length_cons, ite_false, ite_true]
      omega

/-- If every candidate's body evaluation raises, the loop yields no result
record and leaves the store untouched. -/
lemma emotion_loop_allfail (w : World) (sid : String)
    (hall : ∀ i, (w.classifyOutcome i).isOk = false) :
    ∀ (cands : List MatchedImage) (i : Nat) (db : DB),
      (emotion_loop w sid i cands db).results = [] ∧
        (emotion_loop w sid i cands db).db = db := by
  intro cands
  induction cands with
  | nil => intro i db; exact ⟨rfl, rfl⟩
  | cons img rest ih =>
    intro i db
    cases hc : w.classifyOutcome i with
    | error e => simp only [emotion_loop, hc]; exact ih (i+1) db
    | ok v =>
      have := hall i
      rw [hc] at this
      simp [Except.isOk, Except.toBool] at this

/-- The result-record list of the loop does not depend on the store it
threads nor on the persist outcomes: exactly the classification outcomes
determine it. -/
lemma emotion_loop_results_indep (w : World) (sid : String)
    (f : Nat → Bool) :
    ∀ (cands : List MatchedImage) (i : Nat) (db db2 : DB),
      (emotion_loop w sid i cands db).results =
        (emotion_loop { w with emotionPersistOk := f } sid i cands db2).results := by
  intro cands
  induction cands with
  | nil => intro i db db2; rfl
  | cons img rest ih =>
    intro i db db2
    cases hc : w.classifyOutcome i with
    | error e =>
      simp only [emotion_loop, hc]
      exact ih (i+1) db db2
    | ok v =>
      obtain ⟨lbl, dist, conf⟩ := v
      simp only [emotion_loop, hc]
      rw [ih]

/-- When every pre-loop step succeeds and the index returns candidates, the
handler reaches steps 6–9. -/
lemma search_photos_success_eq (req : SearchRequest) (w : World) (db : DB)
    (h1 : w.sessionInsertOk = true) (h2 : w.s3Ok = true)
    (h3 : w.imdecodeOk = true) (h4 : w.facesFound = true)
    (h5 : w.embeddingOk = true) (h6 : w.matchedImages ≠ []) :
    search_photos req w db =
      successPart req w
        (insert_session_user w.now req.session_id req.user_name
          req.captured_image req.privacy_policy_agreed db)
        [Event.sessionInsert req.session_id, Event.s3Upload req.session_id]
        w.matchedImages := by
  cases hm : w.matchedImages with
  | nil => exact absurd hm h6
  | cons a as =>
    rw [← hm]
    simp only [search_photos, h1, h2, detect_and_align_face, h3, h4,
      extract_embedding, h5, get_matched_images, if_true, hm,
      List.isEmpty_cons, ite_true, ite_false, Bool.false_eq_true]
    rfl

/-- The `session_user` table after any call: either untouched (the session
insert itself failed) or exactly one new row built by `mkSessionRow`. -/
lemma search_photos_session_user_cases (req : SearchRequest) (w : World)
    (db : DB) :
    (search_photos req w db).db.session_user = db.session_user ∨
      (search_photos req w db).db.session_user =
        (mkSessionRow w.now req.session_id req.user_name req.captured_image
          req.privacy_policy_agreed) :: db.session_user := by
  by_cases h1 : w.sessionInsertOk
  · right
    by_cases h2 : w.s3Ok
    · cases hd : detect_and_align_face w with
      | none => simp [search_photos, h1, h2, hd, insert_session_user]
      | some u =>
        cases he : extract_embedding w with
        | none => simp [search_photos, h1, h2, hd, he, insert_session_user]
        | some v =>
          by_cases hm : (get_matched_images w MAX_IMAGES_TO_PROCESS
              FACE_SIMILARITY_THRESHOLD).isEmpty
          · simp [search_photos, h1, h2, hd, he, hm, insert_session_user]
          · simp [search_photos, h1, h2, hd, he, hm, successPart,
              insert_aggregated_emotion_session_user,
              emotion_loop_session_user, insert_session_user]
    · simp [search_photos, h1, h2, insert_session_user]
  · left
    simp [search_photos, h1]

/-- Once the session insert succeeds, its effect is recorded first in the
trace, on every control path. -/
lemma search_photos_trace_sessionInsert (req : SearchRequest) (w : World)
    (db : DB) (h1 : w.sessionInsertOk = true) :
    Event.sessionInsert req.session_id ∈ (search_photos req w db).trace := by
  by_cases h2 : w.s3Ok
  · cases hd : detect_and_align_face w with
    | none => simp [search_photos, h1, h2, hd]
    | some u =>
      cases he : extract_embedding w with
      | none => simp [search_photos, h1, h2, hd, he]
      | some v =>
        by_cases hm : (get_matched_images w MAX_IMAGES_TO_PROCESS
            FACE_SIMILARITY_THRESHOLD).isEmpty
        · simp [search_photos, h1, h2, hd, he, hm]
        · simp [search_photos, h1, h2, hd, he, hm, successPart]
  · simp [search_photos, h1, h2]

/-- Once the upload succeeds, it is recorded in the trace on every later
path. -/
lemma search_photos_trace_s3 (req : SearchRequest) (w : World) (db : DB)
    (h1 : w.sessionInsertOk = true) (h2 : w.s3Ok = true) :
    Event.s3Upload req.session_id ∈ (search_photos req w db).trace := by
  cases hd : detect_and_align_face w with
  | none => simp [search_photos, h1, h2, hd]
  | some u =>
    cases he : extract_embedding w with
    | none => simp [search_photos, h1, h2, hd, he]
    | some v =>
      by_cases hm : (get_matched_images w MAX_IMAGES_TO_PROCESS
          FACE_SIMILARITY_THRESHOLD).isEmpty
      · simp [search_photos, h1, h2, hd, he, hm]
      · simp [search_photos, h1, h2, hd, he, hm, successPart]

/-- Under a successful session insert, the new session row is persisted on
every control path. -/
lemma search_photos_session_user_created (req : SearchRequest) (w : World)
    (db : DB) (h1 : w.sessionInsertOk = true) :
    (search_photos req w db).db.session_user =
      (mkSessionRow w.now req.session_id req.user_name req.captured_image
        req.privacy_policy_agreed) :: db.session_user := by
  by_cases h2 : w.s3Ok
  · cases hd : detect_and_align_face w with
    | none => simp [search_photos, h1, h2, hd, insert_session_user]
    | some u =>
      cases he : extract_embedding w with
      | none => simp [search_photos, h1, h2, hd, he, insert_session_user]
      | some v =>
        by_cases hm : (get_matched_images w MAX_IMAGES_TO_PROCESS
            FACE_SIMILARITY_THRESHOLD).isEmpty
        · simp [search_photos, h1, h2, hd, he, hm, insert_session_user]
        · simp [search_photos, h1, h2, hd, he, hm, successPart,
            insert_aggregated_emotion_session_user,
            emotion_loop_session_user, insert_session_user]
  · simp [search_photos, h1, h2, insert_session_user]

/-! ## Concrete fixtures -/

/-- A concrete valid request. -/
def req0 : SearchRequest :=
  { session_id := "sess-1", user_name := "alice", captured_image := "aW1n",
    privacy_policy_agreed := true, timestamp := "2026-01-01T00:00:00Z" }

/-- The empty store. -/
def db0 : DB := ⟨[], [], []⟩

/-- A fully successful world: one candidate, classification succeeds with the
mock result, all persists succeed. -/
def wBase : World :=
  { now := 1700000000, sessionInsertOk := true, s3Ok := true,
    imdecodeOk := true, facesFound := true, embeddingOk := true,
    matchedImages := get_matched_images_stub,
    classifyOutcome := fun _ => .ok ("happy", mockEmotionDist, 45/100),
    emotionPersistOk := fun _ => true, aggPersistOk := true }

/-! ## Claims -/

/-- C3: for every non-empty list of classified emotion records,
`aggregate_emotions` returns: a dominant label that is an observed label with
the highest tally (ties broken by the first-encountered label in processing
order — it is the first key attaining the maximum), aggregate confidence
`tally(dominant)/N`, and a distribution mapping each observed label (in
first-encounter order) to `tally(label)/N`. -/
theorem aggregate_emotions_majority_vote (rs : List Record) (h : rs ≠ []) :
    (aggregate_emotions rs).1 ∈ keysInOrder (recLabels rs) ∧
    (∀ l ∈ keysInOrder (recLabels rs),
      labelCount rs l ≤ labelCount rs (aggregate_emotions rs).1) ∧
    (∃ pre suf,
      keysInOrder (recLabels rs) = pre ++ (aggregate_emotions rs).1 :: suf ∧
      ∀ p ∈ pre, labelCount rs p < labelCount rs (aggregate_emotions rs).1) ∧
    (aggregate_emotions rs).2.1 =
      (labelCount rs (aggregate_emotions rs).1 : ℚ) / (rs.length : ℚ) ∧
    (aggregate_emotions rs).2.2 =
      (keysInOrder (recLabels rs)).map
        (fun l => (l, (labelCount rs l : ℚ) / (rs.length : ℚ))) ∧
    ∀ l, l ∈ keysInOrder (recLabels rs) ↔ l ∈ recLabels rs := by
  have hne : rs.isEmpty = false := by
    cases rs with
    | nil => exact absurd rfl h
    | cons a as => rfl
  have hlabels : recLabels rs ≠ [] := by
    cases rs with
    | nil => exact absurd rfl h
    | cons a as => simp [recLabels]
  have hkeys := keysInOrder_ne_nil _ hlabels
  obtain ⟨hmem, hmax, pre, suf, hsplit, hpre⟩ :=
    pymax_spec (labelCount rs) (keysInOrder (recLabels rs)) hkeys
  have hagg : aggregate_emotions rs =
      (pymax (labelCount rs) (keysInOrder (recLabels rs)),
       (labelCount rs (pymax (labelCount rs) (keysInOrder (recLabels rs))) : ℚ) /
         (rs.length : ℚ),
       (keysInOrder (recLabels rs)).map
         (fun l => (l, (labelCount rs l : ℚ) / (rs.length : ℚ)))) := by
    simp only [aggregate_emotions, hne, Bool.false_eq_true, if_false]
  rw [hagg]
  exact ⟨hmem, hmax, ⟨pre, suf, hsplit, hpre⟩, rfl, rfl,
    fun l => mem_keysInOrder (recLabels rs) l⟩

/-- The spec example `[happy, happy, sad]` as concrete records. -/
def rsEx : List Record :=
  [{ image_id := "1", image_url := "u1", emotion := "happy",
     emotion_distribution := [], emotion_confidence := 1,
     similarity_score := 9/10 },
   { image_id := "2", image_url := "u2", emotion := "happy",
     emotion_distribution := [], emotion_confidence := 1,
     similarity_score := 8/10 },
   { image_id := "3", image_url := "u3", emotion := "sad",
     emotion_distribution := [], emotion_confidence := 1,
     similarity_score := 7/10 }]

unseal Rat.mul Rat.inv Rat.add in
/-- Witness for C3 on the spec example: dominant `happy`, confidence `2/3`,
distribution `{happy: 2/3, sad: 1/3}`, and the theorem instantiated there. -/
theorem aggregate_emotions_majority_vote_witness :
    aggregate_emotions rsEx = ("happy", 2/3, [("happy", 2/3), ("sad", 1/3)]) ∧
    (aggregate_emotions rsEx).1 ∈ keysInOrder (recLabels rsEx) :=
  ⟨by decide, (aggregate_emotions_majority_vote rsEx (by decide)).1⟩

/-- C8: every Session row the `Search` operation creates carries
`expires_at = created_at + SESSION_EXPIRY_HOURS` with the retention window
configured at 24 hours (times in seconds in this embedding; the source takes
one `utcnow()` reading per insert). -/
theorem session_expiry_invariant (req : SearchRequest) (w : World) (db : DB)
    (row : SessionRow)
    (hrow : row ∈ (search_photos req w db).db.session_user) :
    row ∈ db.session_user ∨
      (row.created_at = w.now ∧ SESSION_EXPIRY_HOURS = 24 ∧
        row.expires_at = row.created_at + SESSION_EXPIRY_HOURS * 3600) := by
  rcases search_photos_session_user_cases req w db with hcase | hcase
  · rw [hcase] at hrow
    exact Or.inl hrow
  · rw [hcase] at hrow
    rcases List.mem_cons.1 hrow with rfl | hmem
    · exact Or.inr ⟨rfl, rfl, rfl⟩
    · exact Or.inl hmem

/-- Witness for C8: the row created by a concrete successful search. -/
theorem session_expiry_invariant_witness :
    mkSessionRow wBase.now req0.session_id req0.user_name req0.captured_image
        req0.privacy_policy_agreed ∈ db0.session_user ∨
      ((mkSessionRow wBase.now req0.session_id req0.user_name
          req0.captured_image req0.privacy_policy_agreed).created_at =
          wBase.now ∧
        SESSION_EXPIRY_HOURS = 24 ∧
        (mkSessionRow wBase.now req0.session_id req0.user_name
          req0.captured_image req0.privacy_policy_agreed).expires_at =
          (mkSessionRow wBase.now req0.session_id req0.user_name
            req0.captured_image req0.privacy_policy_agreed).created_at +
            SESSION_EXPIRY_HOURS * 3600) :=
  session_expiry_invariant req0 wBase db0 _ (by decide)

/-- C9: `delete_session` is idempotent — purging an already-purged session
leaves the store unchanged (and, being total, raises nothing). -/
theorem delete_session_idempotent (session_id : String) (db : DB) :
    delete_session session_id (delete_session session_id db) =
      delete_session session_id db := by
  simp [delete_session, List.filter_filter]

unseal Rat.mul Rat.inv Rat.add in
/-- C10: `analyze_emotion` is total at its interface — every input yields a
triple, either the mock success `('happy', mock distribution, 0.45)` or the
fallback; and any internal error yields exactly the fallback
`('neutral', {}, 0.0)` as a normal return, never an exception. -/
theorem analyze_emotion_total_fallback (load : Except Unit Unit) :
    (analyze_emotion load = ("neutral", [], 0) ∨
      analyze_emotion load = ("happy", mockEmotionDist, 45/100)) ∧
    ∀ e, load = .error e → analyze_emotion load = ("neutral", [], 0) := by
  cases load with
  | error e => exact ⟨Or.inl rfl, fun _ _ => rfl⟩
  | ok u =>
    refine ⟨Or.inr ?_, fun e he => Except.noConfusion he⟩
    cases u
    decide

/-- Witness for C10: a concrete failed load returns the fallback. -/
theorem analyze_emotion_total_fallback_witness :
    analyze_emotion (Except.error ()) = ("neutral", [], 0) :=
  (analyze_emotion_total_fallback (Except.error ())).2 () rfl

/-- A world whose single candidate's loop-body evaluation raises. -/
def wAllFail : World := { wBase with classifyOutcome := fun _ => .error () }

/-- The request with consent withheld. -/
def reqNoConsent : SearchRequest := { req0 with privacy_policy_agreed := false }

/-- Worlds separating image-decode failure from no-face-found. -/
def wBadDecode : World := { wBase with imdecodeOk := false }

/-- A decodable image in which no face is found. -/
def wNoFace : World := { wBase with facesFound := false }

/-- A world whose similarity index returns zero candidates. -/
def wNoMatches : World := { wBase with matchedImages := [] }

/-- A world in which the emotion-log persist fails for every record. -/
def wPersistFail : World := { wBase with emotionPersistOk := fun _ => false }

/-- Second and third candidates for the partial-failure scenario. -/
def img2 : MatchedImage :=
  { image_id := "2", image_url := "https://example.com/image2.jpg",
    image_path := "/path/to/image2.jpg", similarity_score := 9/10 }

/-- Third candidate. -/
def img3 : MatchedImage :=
  { image_id := "3", image_url := "https://example.com/image3.jpg",
    image_path := "/path/to/image3.jpg", similarity_score := 85/100 }

/-- Three candidates of which exactly the second raises during
classification. -/
def wPartial : World :=
  { wBase with
    matchedImages := [img1, img2, img3],
    classifyOutcome := fun i =>
      if i == 1 then .error ()
      else .ok ("happy", mockEmotionDist, 45/100) }

unseal Rat.mul Rat.inv Rat.add in
/-- C1 counterexample: with a single candidate whose classification fails,
the search does NOT fail with any error — it returns a 200 response with
`matched_count = 0` — and an Aggregated Result row IS persisted for the
session, contradicting both halves of the claim. -/
theorem search_allfail_counterexample :
    (search_photos req0 wAllFail db0).result =
      Except.ok
        { matched_count := 0, matched_images := [],
          aggregated_state := ("neutral", 0, []),
          statement := mkStatement "neutral" 0, session_id := "sess-1" } ∧
    (search_photos req0 wAllFail db0).db.session_aggregated_emotion.length
      = 1 := by
  decide

/-- C1 amended: when zero candidates are successfully classified, the source
has no `EmotionAnalysisFailed` check — the search succeeds with
`matched_count = 0`, the empty aggregation `('neutral', 0.0, {})`, and (when
its own insert commits) an Aggregated Result row with dominant `neutral` IS
persisted for the session. -/
theorem search_allfail_amended (req : SearchRequest) (w : World) (db : DB)
    (h1 : w.sessionInsertOk = true) (h2 : w.s3Ok = true)
    (h3 : w.imdecodeOk = true) (h4 : w.facesFound = true)
    (h5 : w.embeddingOk = true) (h6 : w.matchedImages ≠ [])
    (hall : ∀ i, (w.classifyOutcome i).isOk = false) :
    (search_photos req w db).result =
      Except.ok
        { matched_count := 0, matched_images := [],
          aggregated_state := ("neutral", 0, []),
          statement := mkStatement "neutral" 0,
          session_id := req.session_id } ∧
    (w.aggPersistOk = true →
      ({ session_id := req.session_id, dominant_emotion := "neutral",
         emotion_confidence := 0, emotion_distribution := [],
         statement := mkStatement "neutral" 0 } : AggRow) ∈
        (search_photos req w db).db.session_aggregated_emotion) := by
  rw [search_photos_success_eq req w db h1 h2 h3 h4 h5 h6]
  obtain ⟨hres, hdb⟩ := emotion_loop_allfail w req.session_id hall
    (w.matchedImages.take MAX_IMAGES_TO_PROCESS) 0
    (insert_session_user w.now req.session_id req.user_name
      req.captured_image req.privacy_policy_agreed db)
  constructor
  · simp only [successPart, hres]
    rfl
  · intro hagg
    simp only [successPart, hres, hdb, insert_aggregated_emotion, hagg,
      if_true]
    simp [insert_session_user, aggregate_emotions]

/-- Witness for C1 amended, at the concrete all-fail world. -/
theorem search_allfail_amended_witness :
    (search_photos req0 wAllFail db0).result =
      Except.ok
        { matched_count := 0, matched_images := [],
          aggregated_state := ("neutral", 0, []),
          statement := mkStatement "neutral" 0,
          session_id := req0.session_id } :=
  (search_allfail_amended req0 wAllFail db0 rfl rfl rfl rfl rfl (by decide)
    (fun _ => rfl)).1

unseal Rat.mul Rat.inv Rat.add in
/-- C2 counterexample: a request with `privacy_policy_agreed = false` is NOT
rejected — the search succeeds, a Session row is created, and the image is
uploaded. -/
theorem consent_gate_counterexample :
    (search_photos reqNoConsent wBase db0).result.isOk = true ∧
    (search_photos reqNoConsent wBase db0).db.session_user ≠ [] ∧
    Event.s3Upload "sess-1" ∈ (search_photos reqNoConsent wBase db0).trace := by
  decide

/-- C2 amended: the handler performs no consent check at all — even with
`privacy_policy_agreed = false` the Session row is persisted (the flag is
merely stored, as the string "False"), the session insert is the first
recorded effect, and the upload still occurs. -/
theorem search_no_consent_gate (req : SearchRequest) (w : World) (db : DB)
    (hconsent : req.privacy_policy_agreed = false)
    (h1 : w.sessionInsertOk = true) :
    (search_photos req w db).db.session_user =
      (mkSessionRow w.now req.session_id req.user_name req.captured_image
        req.privacy_policy_agreed) :: db.session_user ∧
    (mkSessionRow w.now req.session_id req.user_name req.captured_image
      req.privacy_policy_agreed).privacy_policy_agreed = "False" ∧
    Event.sessionInsert req.session_id ∈ (search_photos req w db).trace ∧
    (w.s3Ok = true →
      Event.s3Upload req.session_id ∈ (search_photos req w db).trace) := by
  refine ⟨search_photos_session_user_created req w db h1, ?_,
    search_photos_trace_sessionInsert req w db h1,
    fun h2 => search_photos_trace_s3 req w db h1 h2⟩
  rw [hconsent]
  rfl

/-- Witness for C2 amended, at the concrete no-consent request. -/
theorem search_no_consent_gate_witness :
    (search_photos reqNoConsent wBase db0).db.session_user =
      (mkSessionRow wBase.now reqNoConsent.session_id reqNoConsent.user_name
        reqNoConsent.captured_image reqNoConsent.privacy_policy_agreed) ::
        db0.session_user :=
  (search_no_consent_gate reqNoConsent wBase db0 rfl rfl).1

/-- C4: whenever the pre-loop steps succeed, the search succeeds regardless
of per-candidate classification failures (a failing candidate never aborts
the search); the response satisfies `matched_count = |matched_images|`, with
`n` processed candidates of which `k` raise the response has exactly `n - k`
entries, and the Aggregated Result is computed over exactly those
`matched_images`. -/
theorem search_partial_failure (req : SearchRequest) (w : World) (db : DB)
    (h1 : w.sessionInsertOk = true) (h2 : w.s3Ok = true)
    (h3 : w.imdecodeOk = true) (h4 : w.facesFound = true)
    (h5 : w.embeddingOk = true) (h6 : w.matchedImages ≠ []) :
    (∃ r, (search_photos req w db).result = Except.ok r) ∧
    ∀ r, (search_photos req w db).result = Except.ok r →
      r.matched_count = r.matched_images.length ∧
      r.matched_images.length +
          numFailed w 0 (w.matchedImages.take MAX_IMAGES_TO_PROCESS) =
        (w.matchedImages.take MAX_IMAGES_TO_PROCESS).length ∧
      r.aggregated_state = aggregate_emotions r.matched_images := by
  rw [search_photos_success_eq req w db h1 h2 h3 h4 h5 h6]
  constructor
  · exact ⟨_, rfl⟩
  · intro r hr
    simp only [successPart] at hr
    injection hr with h
    subst h
    exact ⟨rfl, emotion_loop_length w req.session_id
      (w.matchedImages.take MAX_IMAGES_TO_PROCESS) 0 _, rfl⟩

/-- Witness for C4, at a concrete 3-candidate world with one failure. -/
theorem search_partial_failure_witness :
    ∃ r, (search_photos req0 wPartial db0).result = Except.ok r :=
  (search_partial_failure req0 wPartial db0 rfl rfl rfl rfl rfl
    (by decide)).1

unseal Rat.mul Rat.inv Rat.add in
/-- C5 counterexample: an image whose bytes do not decode produces exactly
the same outcome — the 400 "No face detected" error — as a decodable image
with no face; there is no distinct `InvalidImage` error. -/
theorem invalid_image_counterexample :
    (search_photos req0 wBadDecode db0).result =
      Except.error ⟨400, noFaceDetail⟩ ∧
    search_photos req0 wBadDecode db0 = search_photos req0 wNoFace db0 := by
  decide

/-- C5 amended: a request whose image bytes do not decode fails with the
same 400 "No face detected" error that is used when a decodable image
contains no face — `detect_and_align_face` collapses both cases to `None`
and the handler raises one shared error. -/
theorem search_undecodable_image (req : SearchRequest) (w : World) (db : DB)
    (h1 : w.sessionInsertOk = true) (h2 : w.s3Ok = true)
    (hdec : w.imdecodeOk = false) :
    (search_photos req w db).result = Except.error ⟨400, noFaceDetail⟩ := by
  simp [search_photos, h1, h2, detect_and_align_face, hdec]

/-- Witness for C5 amended, at the concrete undecodable-image world. -/
theorem search_undecodable_image_witness :
    (search_photos req0 wBadDecode db0).result =
      Except.error ⟨400, noFaceDetail⟩ :=
  search_undecodable_image req0 wBadDecode db0 rfl rfl rfl

/-- C6: when the similarity index returns zero candidates, the search fails
with the 404 "No matching faces" error, no classifier call occurs, and
neither an Emotion Record nor an Aggregated Result is written. -/
theorem search_no_matches (req : SearchRequest) (w : World) (db : DB)
    (h1 : w.sessionInsertOk = true) (h2 : w.s3Ok = true)
    (h3 : w.imdecodeOk = true) (h4 : w.facesFound = true)
    (h5 : w.embeddingOk = true) (h6 : w.matchedImages = []) :
    (search_photos req w db).result = Except.error ⟨404, noMatchesDetail⟩ ∧
    (∀ p, Event.classifierCall p ∉ (search_photos req w db).trace) ∧
    (search_photos req w db).db.emotion_log = db.emotion_log ∧
    (search_photos req w db).db.session_aggregated_emotion =
      db.session_aggregated_emotion := by
  have hred : search_photos req w db =
      ⟨Except.error ⟨404, noMatchesDetail⟩,
       insert_session_user w.now req.session_id req.user_name
         req.captured_image req.privacy_policy_agreed db,
       [Event.sessionInsert req.session_id, Event.s3Upload req.session_id]⟩ := by
    simp [search_photos, h1, h2, detect_and_align_face, h3, h4,
      extract_embedding, h5, get_matched_images, h6]
  rw [hred]
  refine ⟨rfl, ?_, rfl, rfl⟩
  intro p hp
  rcases List.mem_cons.1 hp with h | h
  · exact Event.noConfusion h
  · rcases List.mem_cons.1 h with h7 | h7
    · exact Event.noConfusion h7
    · exact List.not_mem_nil _ h7

/-- Witness for C6, at the concrete zero-candidate world. -/
theorem search_no_matches_witness :
    (search_photos req0 wNoMatches db0).result =
      Except.error ⟨404, noMatchesDetail⟩ :=
  (search_no_matches req0 wNoMatches db0 rfl rfl rfl rfl rfl rfl).1

unseal Rat.mul Rat.inv Rat.add in
/-- C7 counterexample: with one candidate classified successfully but its
Emotion Record persist failing, no error surfaces, the emotion-log table
stays empty, yet the record still participates: the response reports it and
the Aggregated Result is computed over it. -/
theorem emotion_persist_counterexample :
    (search_photos req0 wPersistFail db0).db.emotion_log = [] ∧
    (search_photos req0 wPersistFail db0).result =
      Except.ok
        { matched_count := 1,
          matched_images :=
            [{ image_id := "1",
               image_url := "https://example.com/image1.jpg",
               emotion := "happy",
               emotion_distribution := mockEmotionDist,
               emotion_confidence := 45/100, similarity_score := 95/100 }],
          aggregated_state := ("happy", 1, [("happy", 1)]),
          statement := mkStatement "happy" 1, session_id := "sess-1" } := by
  decide

/-- C7 amended: every Emotion Record insert is attempted before the
Aggregated Result insert (the trace after the aggregated insert holds no
emotion-log effect), but a failed persist is silently swallowed by
`insert_emotion_log`: the response — and hence the record set the aggregate
is computed over — is identical whether or not the persists succeed. -/
theorem emotion_persist_swallowed (req : SearchRequest) (w : World) (db : DB)
    (h1 : w.sessionInsertOk = true) (h2 : w.s3Ok = true)
    (h3 : w.imdecodeOk = true) (h4 : w.facesFound = true)
    (h5 : w.embeddingOk = true) (h6 : w.matchedImages ≠ [])
    (f : Nat → Bool) :
    (search_photos req w db).result =
      (search_photos req { w with emotionPersistOk := f } db).result ∧
    ∃ t₁ t₂, (search_photos req w db).trace =
        t₁ ++ Event.aggregatedInsert req.session_id :: t₂ ∧
      ∀ id, Event.emotionLogInsert id ∉ t₂ := by
  rw [search_photos_success_eq req w db h1 h2 h3 h4 h5 h6,
    search_photos_success_eq req { w with emotionPersistOk := f } db h1 h2
      h3 h4 h5 h6]
  constructor
  · have hres := emotion_loop_results_indep w req.session_id f
      (w.matchedImages.take MAX_IMAGES_TO_PROCESS) 0
      (insert_session_user w.now req.session_id req.user_name
        req.captured_image req.privacy_policy_agreed db)
      (insert_session_user w.now req.session_id req.user_name
        req.captured_image req.privacy_policy_agreed db)
    simp only [successPart]
    rw [← hres]
  · simp only [successPart]
    refine ⟨[Event.sessionInsert req.session_id,
        Event.s3Upload req.session_id] ++
      (emotion_loop w req.session_id 0
        (w.matchedImages.take MAX_IMAGES_TO_PROCESS)
        (insert_session_user w.now req.session_id req.user_name
          req.captured_image req.privacy_policy_agreed db)).evs,
      [Event.scheduleCleanup req.session_id], ?_, ?_⟩
    · simp
    · intro id hid
      simp at hid

/-- Witness for C7 amended: at the concrete base world, failing every
persist leaves the response unchanged. -/
theorem emotion_persist_swallowed_witness :
    (search_photos req0 wBase db0).result =
      (search_photos req0 { wBase with emotionPersistOk := fun _ => false }
        db0).result :=
  (emotion_persist_swallowed req0 wBase db0 rfl rfl rfl rfl rfl (by decide)
    (fun _ => false)).1

end Rivion
